import Mathlib

/-!
Verification of the Data-Server core (spike detection, alert manager with
cooldowns, and the replay tick generator) against its specification.

Python floats are modelled as exact rationals (ℚ).  `round(x, d)` is Python's
round-half-to-even, modelled by `roundHalfEven`; `int(x)` truncates toward
zero, modelled by `pyInt`.  `x or default` on an optional float treats both
`None` and `0.0` as falsy, modelled by `pyOrFloat`.  Random draws
(`random.randint`, `np.random.normal`) and the transcendental
`np.sin(progress * pi)` are supplied to the embedded functions as explicit
oracle inputs, so theorems quantify over them.
-/

/-- Round half to even (Python's `round` to 0 digits), on rationals. -/
def roundHalfEven (x : ℚ) : ℤ :=
  let f : ℤ := ⌊x⌋
  let r : ℚ := x - f
  if r < 1/2 then f
  else if 1/2 < r then f + 1
  else if Even f then f else f + 1

/-- Python `round(x, d)` for `d` decimal digits. -/
def pyRoundTo (d : ℕ) (x : ℚ) : ℚ :=
  (roundHalfEven (x * 10 ^ d) : ℚ) / 10 ^ d

/-- Python `round(x, 2)`. -/
def pyRound2 (x : ℚ) : ℚ := pyRoundTo 2 x

/-- Python `int(x)`: truncation toward zero. -/
def pyInt (x : ℚ) : ℤ :=
  if 0 ≤ x then ⌊x⌋ else ⌈x⌉

/-- Python `x or default` where `x` is an optional float:
`None` and `0.0` are falsy and select the default. -/
def pyOrFloat (x : Option ℚ) (d : ℚ) : ℚ :=
  match x with
  | none => d
  | some v => if v = 0 then d else v

/-- Association-list lookup (first binding wins), modelling Python dict access. -/
def alookup {α β : Type} [DecidableEq α] : List (α × β) → α → Option β
  | [], _ => none
  | (k, v) :: rest, a => if k = a then some v else alookup rest a

/-! ## Spike detector (`detection/spike_detector.py`) -/

/-- `SpikeAlert` dataclass (the runtime `timestamp` string is not modelled). -/
structure SpikeAlert where
  symbol : String
  alert_type : String
  direction : String
  magnitude : ℚ
  current_value : ℚ
  threshold : ℚ
  reference_value : ℚ
deriving DecidableEq

/-- `SpikeDetector` configuration. -/
structure SpikeDetector where
  default_price_threshold_pct : ℚ
  default_volume_threshold_multiplier : ℚ
deriving DecidableEq

/-- `SpikeDetector.check_price_spike`. -/
def check_price_spike (det : SpikeDetector) (symbol : String)
    (current_price prev_close : ℚ) (threshold_pct : Option ℚ) :
    Option SpikeAlert :=
  if prev_close ≤ 0 then none
  else
    let threshold := pyOrFloat threshold_pct det.default_price_threshold_pct
    let change_pct := (current_price - prev_close) / prev_close * 100
    if |change_pct| ≥ threshold then
      some { symbol := symbol
             alert_type := "price"
             direction := if 0 < change_pct then "up" else "down"
             magnitude := |change_pct|
             current_value := current_price
             threshold := threshold
             reference_value := prev_close }
    else none

/-- `SpikeDetector.check_volume_spike`.  Note the stored magnitude is
`round(volume_ratio, 2)`. -/
def check_volume_spike (det : SpikeDetector) (symbol : String)
    (current_volume avg_volume : ℚ) (threshold_multiplier : Option ℚ) :
    Option SpikeAlert :=
  if avg_volume ≤ 0 then none
  else
    let threshold := pyOrFloat threshold_multiplier det.default_volume_threshold_multiplier
    let volumeQuot := current_volume / avg_volume
    if volumeQuot ≥ threshold then
      some { symbol := symbol
             alert_type := "volume"
             direction := "up"
             magnitude := pyRound2 volumeQuot
             current_value := current_volume
             threshold := threshold
             reference_value := avg_volume }
    else none

/-- The tick dict as consumed by `analyze_tick`: `symbol` and `price` are
accessed unconditionally; `prev_close`, `open`, `volume`, `avg_volume` are
optional (`dict.get` with defaults). -/
structure TickDict where
  symbol : String
  price : ℚ
  prev_close : Option ℚ
  open_p : Option ℚ
  volume : Option ℚ
  avg_volume : Option ℚ
deriving DecidableEq

/-- `SpikeDetector.analyze_tick`. -/
def analyze_tick (det : SpikeDetector) (tick : TickDict)
    (price_threshold_pct volume_threshold_multiplier : Option ℚ) :
    List SpikeAlert :=
  let price_alert := check_price_spike det tick.symbol tick.price
    (tick.prev_close.getD (tick.open_p.getD 0)) price_threshold_pct
  let volume_alert := check_volume_spike det tick.symbol
    (tick.volume.getD 0) (tick.avg_volume.getD 1) volume_threshold_multiplier
  (match price_alert with | some a => [a] | none => []) ++
  (match volume_alert with | some a => [a] | none => [])

/-! ## Alert manager (`detection/alert_manager.py`) -/

/-- `AlertSubscription` dataclass. -/
structure AlertSubscription where
  user_id : String
  symbol : String
  price_threshold_pct : ℚ
  volume_threshold_multiplier : ℚ
  enabled : Bool
deriving DecidableEq

/-- Cooldown key `(user_id, symbol, alert_type)`. -/
abbrev CdKey := String × String × String

/-- `self._cooldowns.get(key, 0)`: first binding wins, default `0`. -/
def cdGet : List (CdKey × ℚ) → CdKey → ℚ
  | [], _ => 0
  | (k, t) :: rest, a => if k = a then t else cdGet rest a

/-- `self._cooldowns[key] = now`: overwriting write (prepend; `cdGet` takes
the most recent binding). -/
def cdSet (m : List (CdKey × ℚ)) (k : CdKey) (t : ℚ) : List (CdKey × ℚ) :=
  (k, t) :: m

/-- `AlertManager` state: detector, subscriptions (user → symbol → sub, in
Python dict insertion order), cooldown timestamps and the cooldown window.
Listener callbacks are not modelled (they do not affect manager state). -/
structure AlertManager where
  detector : SpikeDetector
  subscriptions : List (String × List (String × AlertSubscription))
  cooldowns : List (CdKey × ℚ)
  cooldown_seconds : ℚ
deriving DecidableEq

/-- The per-alert body of `process_ticks`: check cooldown for
`(user_id, symbol, alert.alert_type)`; if inside the window skip (the
timer is untouched), else stamp `now` and append to the triggered list. -/
def processAlert (cds now : ℚ) (user_id symbol : String)
    (acc : List (CdKey × ℚ) × List (String × SpikeAlert)) (alert : SpikeAlert) :
    List (CdKey × ℚ) × List (String × SpikeAlert) :=
  let key : CdKey := (user_id, symbol, alert.alert_type)
  if now - cdGet acc.1 key < cds then acc
  else (cdSet acc.1 key now, acc.2 ++ [(user_id, alert)])

/-- The per-subscription body of `process_ticks`: skip disabled
subscriptions and symbols absent from the batch, else run the detector with
the subscription's thresholds and process each alert. -/
def processSub (det : SpikeDetector) (cds now : ℚ) (ticks : List (String × TickDict))
    (u : String) (acc : List (CdKey × ℚ) × List (String × SpikeAlert))
    (sp : String × AlertSubscription) :
    List (CdKey × ℚ) × List (String × SpikeAlert) :=
  if sp.2.enabled = false then acc
  else
    match alookup ticks sp.1 with
    | none => acc
    | some tick =>
      (analyze_tick det tick (some sp.2.price_threshold_pct)
        (some sp.2.volume_threshold_multiplier)).foldl (processAlert cds now u sp.1) acc

/-- The per-user body of `process_ticks`: fold over the user's
symbol → subscription map. -/
def processUser (det : SpikeDetector) (cds now : ℚ) (ticks : List (String × TickDict))
    (acc : List (CdKey × ℚ) × List (String × SpikeAlert))
    (up : String × List (String × AlertSubscription)) :
    List (CdKey × ℚ) × List (String × SpikeAlert) :=
  up.2.foldl (processSub det cds now ticks up.1) acc

/-- `AlertManager.process_ticks`.  `time.time()` is modelled as a single
reading `now` per call.  Returns the updated manager and the triggered list
of `(user_id, alert)` pairs. -/
def process_ticks (am : AlertManager) (now : ℚ) (ticks : List (String × TickDict)) :
    AlertManager × List (String × SpikeAlert) :=
  let r := am.subscriptions.foldl
    (processUser am.detector am.cooldown_seconds now ticks) (am.cooldowns, [])
  ({ am with cooldowns := r.1 }, r.2)

/-- A sequence of `process_ticks` calls, each with its own `now`; returns the
final manager and the emission log, each emission tagged with the `now` of
the batch that emitted it. -/
def run_batches : AlertManager → List (ℚ × List (String × TickDict)) →
    AlertManager × List ((String × SpikeAlert) × ℚ)
  | am, [] => (am, [])
  | am, (now, ticks) :: rest =>
    let r := process_ticks am now ticks
    let rr := run_batches r.1 rest
    (rr.1, r.2.map (fun e => (e, now)) ++ rr.2)

/-! ## Replay tick generator (`providers/simulator.py`) -/

/-- One daily OHLCV bar (`open`/`high`/`low`/`close`/`volume` dict entries;
`date` and `turnover` metadata are not modelled). -/
structure HistoricalDay where
  open_p : ℚ
  high_p : ℚ
  low_p : ℚ
  close_p : ℚ
  volume_p : ℚ
deriving DecidableEq, Inhabited

/-- Module constants. -/
def REPLAY_WINDOW_DAYS : ℕ := 7

/-- Module constants. -/
def HISTORY_LOOKBACK_DAYS : ℕ := 30

/-- Module constants. -/
def TICKS_PER_DAY : ℕ := 200

/-- Per-symbol replay cursor (`self._replay[symbol]`). -/
structure ReplayCursor where
  full_history : List HistoricalDay
  window : List HistoricalDay
  day_index : ℕ
  tick_index : ℕ
  ticks_per_day : ℕ
deriving DecidableEq

/-- Per-symbol current state (`self._current_state[symbol]`); the numeric
fields mutated by the generator.  String metadata (`name`, `sector`,
`replay_date`, `timestamp`) and the static `avg_volume`/`volatility` are
not modelled. -/
structure TickState where
  price : ℚ
  open_p : ℚ
  high : ℚ
  low : ℚ
  volume : ℚ
  change : ℚ
  change_pct : ℚ
  prev_close : ℚ
deriving DecidableEq

/-- Combined per-symbol generator state. -/
structure SymState where
  replay : ReplayCursor
  state : TickState
deriving DecidableEq

/-- The emitted tick: a copy of the post-update state plus
`tick_volume` and `day_progress`. -/
structure Tick where
  state : TickState
  tick_volume : ℤ
  day_progress : ℚ
deriving DecidableEq

/-- `_pick_replay_window`: a slice `history[start : start+window_size]` with
`window_size = min(REPLAY_WINDOW_DAYS, len(history))` and
`start = random.randint(0, max_start)`; the random draw is modelled by an
oracle `rnd` reduced modulo the inclusive range. -/
def pick_replay_window (rnd : ℕ) (history : List HistoricalDay) : List HistoricalDay :=
  let available := history.length
  let window_size := min REPLAY_WINDOW_DAYS available
  let max_start := available - window_size
  let start := rnd % (max_start + 1)
  (history.drop start).take window_size

/-- `_advance_replay`: reseed the window, reset the cursor to `(0, 0)` and
seed the state from the new first day (`window[0]`; the list is nonempty in
every reachable state, so the `headD` default is never taken there). -/
def advance_replay (rnd : ℕ) (s : SymState) : SymState :=
  let w := pick_replay_window rnd s.replay.full_history
  let first_day := w.headD default
  { replay := { s.replay with window := w, day_index := 0, tick_index := 0 }
    state := { s.state with
      prev_close := s.state.price
      open_p := first_day.open_p
      high := first_day.open_p
      low := first_day.open_p
      volume := 0 } }

/-- `reset_session` (per symbol): advance `day_index`, reset `tick_index`;
reseed if the window is exhausted, else seed the state from the new day. -/
def reset_session (rnd : ℕ) (s : SymState) : SymState :=
  let rep := { s.replay with day_index := s.replay.day_index + 1, tick_index := 0 }
  if rep.window.length ≤ rep.day_index then
    advance_replay rnd { s with replay := rep }
  else
    let day_data := rep.window.getD rep.day_index default
    let prev := s.state.price
    { replay := rep
      state := { s.state with
        prev_close := prev
        open_p := day_data.open_p
        high := day_data.open_p
        low := day_data.open_p
        price := day_data.open_p
        volume := 0
        change := pyRound2 (day_data.open_p - prev)
        change_pct := if prev = 0 then 0
          else pyRound2 ((day_data.open_p - prev) / prev * 100) } }

/-- Per-symbol `_initialize`: symbols with fewer than 2 days of history are
excluded (`none`); otherwise pick a window and seed cursor and state from its
first day. -/
def init_symbol (rnd : ℕ) (history : List HistoricalDay) : Option SymState :=
  if history.length < 2 then none
  else
    let w := pick_replay_window rnd history
    let first_day := w.headD default
    some
      { replay :=
          { full_history := history
            window := w
            day_index := 0
            tick_index := 0
            ticks_per_day := TICKS_PER_DAY }
        state :=
          { price := first_day.open_p
            open_p := first_day.open_p
            high := first_day.open_p
            low := first_day.open_p
            volume := 0
            change := 0
            change_pct := 0
            prev_close := first_day.open_p } }

/-- `_interpolate_price`: the 4-phase piecewise-linear walk O → H → L → C. -/
def interpolate_price (open_p high_p low_p close_p progress : ℚ) : ℚ :=
  if progress < 1/4 then open_p + (high_p - open_p) * (progress / (1/4))
  else if progress < 1/2 then high_p + (low_p - high_p) * ((progress - 1/4) / (1/4))
  else if progress < 4/5 then low_p + (close_p - low_p) * ((progress - 1/2) / (3/10))
  else close_p + (close_p - close_p) * ((progress - 4/5) / (1/5))

/-- `generate_tick` (per symbol).  Oracle inputs: `rnd1` for a reseed at
entry, `rnd2` for a reseed at end of window, `noise` for the Gaussian draw
`np.random.normal(0, day_range * 0.02)`, and `vol_progress` for the runtime
value of `np.sin(progress * pi)`. -/
def generate_tick (rnd1 rnd2 : ℕ) (noise vol_progress : ℚ) (s0 : SymState) :
    SymState × Tick :=
  let s := if s0.replay.window.length ≤ s0.replay.day_index
    then advance_replay rnd1 s0 else s0
  let day_idx := s.replay.day_index
  let tick_idx := s.replay.tick_index
  let tpd := s.replay.ticks_per_day
  let day := s.replay.window.getD day_idx default
  let progress : ℚ := min ((tick_idx : ℚ) / ((max (tpd - 1) 1 : ℕ) : ℚ)) 1
  let target_price := interpolate_price day.open_p day.high_p day.low_p day.close_p progress
  -- day_range only feeds the Gaussian's std; the draw itself is `noise`
  let new_price := max (target_price + noise) 1
  let tick_volume : ℤ := max 1 (pyInt (day.volume_p / (tpd : ℚ) * (1/2 + vol_progress)))
  let prev_close := s.state.prev_close
  let st1 : TickState :=
    { s.state with
      price := pyRound2 new_price
      high := pyRound2 (max s.state.high new_price)
      low := pyRound2 (min s.state.low new_price)
      volume := s.state.volume + (tick_volume : ℚ)
      change := pyRound2 (new_price - prev_close)
      change_pct := if prev_close = 0 then 0
        else pyRound2 ((new_price - prev_close) / prev_close * 100) }
  let rep1 : ReplayCursor := { s.replay with tick_index := tick_idx + 1 }
  let s2 : SymState :=
    if tpd ≤ rep1.tick_index then
      let st2 : TickState :=
        { st1 with
          price := pyRound2 day.close_p
          change := pyRound2 (day.close_p - prev_close)
          change_pct := if prev_close = 0 then 0
            else pyRound2 ((day.close_p - prev_close) / prev_close * 100) }
      let rep2 : ReplayCursor := { rep1 with day_index := day_idx + 1, tick_index := 0 }
      if rep2.day_index < rep2.window.length then
        let next_day := rep2.window.getD rep2.day_index default
        { replay := rep2
          state := { st2 with
            prev_close := day.close_p
            open_p := next_day.open_p
            high := next_day.open_p
            low := next_day.open_p
            volume := 0 } }
      else
        advance_replay rnd2 { replay := rep2, state := st2 }
    else { replay := rep1, state := st1 }
  (s2, { state := s2.state, tick_volume := tick_volume,
         day_progress := pyRoundTo 1 (progress * 100) })

/-! ## Derived predicates and comparison definitions -/

/-- The cooldown key of an emitted `(user_id, alert)` pair. -/
def keyOf (e : String × SpikeAlert) : CdKey := (e.1, e.2.symbol, e.2.alert_type)

/-- Separation relation on timed emissions: two emissions with the same
cooldown key are at least `cds` apart (earlier one first). -/
def cdSep (cds : ℚ) (a b : (String × SpikeAlert) × ℚ) : Prop :=
  keyOf a.1 = keyOf b.1 → a.2 + cds ≤ b.2

/-- A tick batch is coherent when each tick's `symbol` field equals its key
in the batch dict (always true for batches built by the engine). -/
def Coherent (ticks : List (String × TickDict)) : Prop :=
  ∀ p ∈ ticks, (p.2).symbol = p.1

/-- Cooldown bookkeeping invariant: the emission log is pairwise separated,
and no logged emission is newer than its key's cooldown stamp. -/
def InvCd (cds : ℚ) (cd : List (CdKey × ℚ)) (L : List ((String × SpikeAlert) × ℚ)) : Prop :=
  L.Pairwise (cdSep cds) ∧ ∀ e ∈ L, e.2 ≤ cdGet cd (keyOf e.1)

/-- The replay-cursor invariant (spec §3, ReplayCursor), strengthened with
the two facts that make it self-sustaining: the backing history is nonempty
and `ticks_per_day` is positive. -/
def CursorInv (s : SymState) : Prop :=
  0 < s.replay.full_history.length ∧
  0 < s.replay.ticks_per_day ∧
  s.replay.day_index < s.replay.window.length ∧
  s.replay.tick_index < s.replay.ticks_per_day

/-- Modelled from the spec (§4.4: "run the Spike Detector with that
subscription's thresholds"): identical to `check_price_spike` except that the
threshold argument is used verbatim, with no falsy-default substitution. -/
def check_price_spike_direct (symbol : String)
    (current_price prev_close threshold : ℚ) : Option SpikeAlert :=
  if prev_close ≤ 0 then none
  else
    let change_pct := (current_price - prev_close) / prev_close * 100
    if |change_pct| ≥ threshold then
      some { symbol := symbol
             alert_type := "price"
             direction := if 0 < change_pct then "up" else "down"
             magnitude := |change_pct|
             current_value := current_price
             threshold := threshold
             reference_value := prev_close }
    else none

/-- Modelled from the spec (§4.4), volume counterpart of
`check_price_spike_direct`: the threshold multiplier is used verbatim. -/
def check_volume_spike_direct (symbol : String)
    (current_volume avg_volume threshold : ℚ) : Option SpikeAlert :=
  if avg_volume ≤ 0 then none
  else
    let volumeQuot := current_volume / avg_volume
    if volumeQuot ≥ threshold then
      some { symbol := symbol
             alert_type := "volume"
             direction := "up"
             magnitude := pyRound2 volumeQuot
             current_value := current_volume
             threshold := threshold
             reference_value := avg_volume }
    else none

/-- Modelled from the spec (§4.4): `analyze_tick` with both subscription
thresholds used verbatim. -/
def analyze_tick_direct (tick : TickDict) (p v : ℚ) : List SpikeAlert :=
  (match check_price_spike_direct tick.symbol tick.price
      (tick.prev_close.getD (tick.open_p.getD 0)) p with
    | some a => [a] | none => []) ++
  (match check_volume_spike_direct tick.symbol
      (tick.volume.getD 0) (tick.avg_volume.getD 1) v with
    | some a => [a] | none => [])

/-! ## Concrete scenario states used by the claims -/

/-- Cooldown scenario (spec §8): one user subscribed to NABIL at default
thresholds, cooldown 300 s, and the `(u1, NABIL, price)` key last fired at
`t = 0`. -/
def amScen : AlertManager :=
  { detector := ⟨3, 2⟩
    subscriptions := [("u1", [("NABIL", ⟨"u1", "NABIL", 3, 2, true⟩)])]
    cooldowns := [(("u1", "NABIL", "price"), 0)]
    cooldown_seconds := 300 }

/-- A tick that trips the 3 % price threshold (4 % move) but not the volume
threshold. -/
def tickScen : TickDict := ⟨"NABIL", 1300, some 1250, none, some 100, some 100000⟩

/-- The alert `tickScen` produces under `amScen`. -/
def alertScen : SpikeAlert := ⟨"NABIL", "price", "up", 4, 1300, 3, 1250⟩

/-- Manager whose only subscription carries explicit zero thresholds. -/
def amZeroThr : AlertManager :=
  { detector := ⟨3, 2⟩
    subscriptions := [("u1", [("NABIL", ⟨"u1", "NABIL", 0, 0, true⟩)])]
    cooldowns := []
    cooldown_seconds := 0 }

/-- A tick with a 1 % price move and volume exactly equal to average. -/
def tickSmall : TickDict := ⟨"NABIL", 101, some 100, none, some 100, some 100⟩

/-- A day whose close (301/3) is not representable with 2 decimals. -/
def dayC5 : HistoricalDay := ⟨100, 120, 90, 301/3, 1000⟩

/-- Cursor on the last tick (index 9 of 10) of `dayC5`. -/
def sC5 : SymState :=
  ⟨⟨[dayC5], [dayC5], 0, 9, 10⟩, ⟨100, 100, 100, 100, 0, 0, 0, 100⟩⟩

/-- A day with volume 25 replayed at 7 ticks per day. -/
def dayC8 : HistoricalDay := ⟨100, 120, 90, 110, 25⟩

/-- Cursor on tick 1 of 7: `progress = 1/6`, where `sin(progress * pi)` is
exactly `1/2`. -/
def sC8 : SymState :=
  ⟨⟨[dayC8], [dayC8], 0, 1, 7⟩, ⟨100, 100, 100, 100, 0, 0, 0, 100⟩⟩

/-- An ordinary day used by the change_pct counterexamples. -/
def dayC9 : HistoricalDay := ⟨100, 120, 90, 110, 1000⟩

/-- Mid-day cursor whose state has a negative `prev_close`. -/
def sC9neg : SymState :=
  ⟨⟨[dayC9], [dayC9], 0, 0, 10⟩, ⟨100, 100, 100, 100, 0, 0, 0, -3⟩⟩

/-- Mid-day cursor with `prev_close = 3`. -/
def sC9pos : SymState :=
  ⟨⟨[dayC9], [dayC9], 0, 0, 10⟩, ⟨100, 100, 100, 100, 0, 0, 0, 3⟩⟩

/-- Two days of history, enough to initialize a symbol. -/
def histEx : List HistoricalDay :=
  [⟨100, 120, 90, 110, 1000⟩, ⟨110, 115, 95, 105, 800⟩]

/-- The generator state `init_symbol 0 histEx` produces. -/
def sInit : SymState :=
  ⟨⟨histEx, histEx, 0, 0, 200⟩, ⟨100, 100, 100, 100, 0, 0, 0, 100⟩⟩

/-! ## C1 — price-spike rule -/

/-- C1 (amended): for `prev_close > 0` the price check returns an alert iff
`|change_pct|` is at least the *effective* threshold — the detector default
when `threshold_pct` is `None` or `0` (Python `or` on a falsy float),
`threshold_pct` itself otherwise; equality fires; direction is `up` iff the
change is positive, magnitude is `|change_pct|`; for `prev_close ≤ 0` no
alert is returned; and the concrete tick `{prev_close=1250, current=1300,
threshold=3.0}` yields one `up` price alert of magnitude 4. -/
theorem check_price_spike_rule (det : SpikeDetector) (sym : String)
    (current prev : ℚ) (th : Option ℚ) :
    (prev ≤ 0 → check_price_spike det sym current prev th = none) ∧
    (0 < prev →
      ((check_price_spike det sym current prev th).isSome ↔
        pyOrFloat th det.default_price_threshold_pct ≤ |(current - prev) / prev * 100|)) ∧
    (∀ a, check_price_spike det sym current prev th = some a →
      a.direction = (if 0 < (current - prev) / prev * 100 then "up" else "down") ∧
      a.magnitude = |(current - prev) / prev * 100|) ∧
    analyze_tick ⟨3, 2⟩ ⟨"NABIL", 1300, some 1250, none, none, none⟩ (some 3) none =
      [⟨"NABIL", "price", "up", 4, 1300, 3, 1250⟩] := by
  refine ⟨fun h => ?_, fun h => ?_, fun a ha => ?_, ?_⟩
  · simp [check_price_spike, h]
  · rw [check_price_spike, if_neg (not_le.mpr h)]
    dsimp only
    split_ifs with hge h3
    · exact iff_of_true (by simp) hge
    · exact iff_of_true (by simp) hge
    · exact iff_of_false (by simp) fun hc => hge hc
  · rw [check_price_spike] at ha
    dsimp only at ha
    split_ifs at ha
    all_goals (rw [Option.some_inj] at ha; subst ha; exact ⟨by simp [*], rfl⟩)
  · norm_num [analyze_tick, check_price_spike, check_volume_spike, pyOrFloat]

/-- C1 counterexample: a call with explicit `threshold_pct = 0` and a 1 %
move (`|change_pct| = 1 ≥ 0 = threshold_pct`) returns no alert, because
Python's `or` replaces the falsy `0.0` with the default threshold 3. -/
theorem check_price_spike_rule_cex :
    check_price_spike ⟨3, 2⟩ "NABIL" 101 100 (some 0) = none ∧
    (0 : ℚ) < 100 ∧ (0 : ℚ) ≤ |((101 : ℚ) - 100) / 100 * 100| := by
  norm_num [check_price_spike, pyOrFloat]

/-- Witness for `check_price_spike_rule` at a concrete input. -/
theorem check_price_spike_rule_witness :
    (check_price_spike ⟨3, 2⟩ "NABIL" 1040 1000 (some 3)).isSome ↔
      pyOrFloat (some 3) (3 : ℚ) ≤ |((1040 : ℚ) - 1000) / 1000 * 100| :=
  (check_price_spike_rule ⟨3, 2⟩ "NABIL" 1040 1000 (some 3)).2.1 (by norm_num)

/-! ## C2 — volume-spike rule -/

/-- C2 (amended): for `avg_volume > 0` the volume check returns an alert iff
`current_volume / avg_volume` is at least the *effective* threshold — the
detector default when `threshold_multiplier` is `None` or `0` — with
direction always `up` and magnitude equal to the ratio **rounded to 2
decimals**; for `avg_volume ≤ 0` no alert is returned; and analyzing
`{volume=100000, avg_volume=40000, threshold=2.0}` yields one volume alert
of magnitude 2.5. -/
theorem check_volume_spike_rule (det : SpikeDetector) (sym : String)
    (vol avg : ℚ) (th : Option ℚ) :
    (avg ≤ 0 → check_volume_spike det sym vol avg th = none) ∧
    (0 < avg →
      ((check_volume_spike det sym vol avg th).isSome ↔
        pyOrFloat th det.default_volume_threshold_multiplier ≤ vol / avg)) ∧
    (∀ a, check_volume_spike det sym vol avg th = some a →
      a.direction = "up" ∧ a.magnitude = pyRound2 (vol / avg)) ∧
    analyze_tick ⟨3, 2⟩ ⟨"NABIL", 0, none, none, some 100000, some 40000⟩ none (some 2) =
      [⟨"NABIL", "volume", "up", 5/2, 100000, 2, 40000⟩] := by
  refine ⟨fun h => ?_, fun h => ?_, fun a ha => ?_, ?_⟩
  · simp [check_volume_spike, h]
  · rw [check_volume_spike, if_neg (not_le.mpr h)]
    dsimp only
    split_ifs with hge
    · exact iff_of_true (by simp) hge
    · exact iff_of_false (by simp) fun hc => hge hc
  · rw [check_volume_spike] at ha
    dsimp only at ha
    split_ifs at ha
    all_goals (rw [Option.some_inj] at ha; subst ha; exact ⟨by simp [*], rfl⟩)
  · norm_num [analyze_tick, check_price_spike, check_volume_spike, pyOrFloat,
      pyRound2, pyRoundTo, roundHalfEven, Int.floor_eq_iff, Int.even_iff]

/-- C2 counterexample: (a) explicit `threshold_multiplier = 0` with
`ratio = 1 ≥ 0` returns no alert (falsy-default substitution); (b) with
`volume=7, avg=3` the stored magnitude is `round(7/3, 2) = 2.33`, not the
exact ratio `7/3`. -/
theorem check_volume_spike_rule_cex :
    (check_volume_spike ⟨3, 2⟩ "NABIL" 1 1 (some 0) = none ∧
      (0 : ℚ) < 1 ∧ (0 : ℚ) ≤ (1 : ℚ) / 1) ∧
    (check_volume_spike ⟨3, 2⟩ "NABIL" 7 3 (some 2) =
      some ⟨"NABIL", "volume", "up", 233/100, 7, 2, 3⟩ ∧
      (233 : ℚ) / 100 ≠ (7 : ℚ) / 3) := by
  norm_num [check_volume_spike, pyOrFloat, pyRound2, pyRoundTo, roundHalfEven,
    Int.floor_eq_iff, Int.even_iff]

/-- Witness for `check_volume_spike_rule` at a concrete input. -/
theorem check_volume_spike_rule_witness :
    (check_volume_spike ⟨3, 2⟩ "NABIL" 100000 40000 (some 2)).isSome ↔
      pyOrFloat (some 2) (2 : ℚ) ≤ (100000 : ℚ) / 40000 :=
  (check_volume_spike_rule ⟨3, 2⟩ "NABIL" 100000 40000 (some 2)).2.1 (by norm_num)

/-! ## C4 — 4-phase interpolation -/

/-- C4: the pre-noise target price follows the piecewise-linear walk
open → high → low → close: on `[0, 0.25)` it is `open + (high-open)*(p/0.25)`,
on `[0.25, 0.50)` it is `high + (low-high)*((p-0.25)/0.25)`, on `[0.50, 0.80)`
it is `low + (close-low)*((p-0.50)/0.30)`, and on `[0.80, 1]` it is `close`;
with `open=100, high=120, low=90, close=110` it takes the values
100, 120, 90, 110 at progress 0, 0.25, 0.50, 0.80. -/
theorem interpolate_price_phases (o h l c p : ℚ) :
    (0 ≤ p → p < 1/4 → interpolate_price o h l c p = o + (h - o) * (p / (1/4))) ∧
    (1/4 ≤ p → p < 1/2 →
      interpolate_price o h l c p = h + (l - h) * ((p - 1/4) / (1/4))) ∧
    (1/2 ≤ p → p < 4/5 →
      interpolate_price o h l c p = l + (c - l) * ((p - 1/2) / (3/10))) ∧
    (4/5 ≤ p → p ≤ 1 → interpolate_price o h l c p = c) ∧
    (interpolate_price 100 120 90 110 0 = 100 ∧
     interpolate_price 100 120 90 110 (1/4) = 120 ∧
     interpolate_price 100 120 90 110 (1/2) = 90 ∧
     interpolate_price 100 120 90 110 (4/5) = 110) := by
  refine ⟨fun h0 h1 => ?_, fun h0 h1 => ?_, fun h0 h1 => ?_, fun h0 h1 => ?_, ?_⟩
  · rw [interpolate_price, if_pos h1]
  · rw [interpolate_price, if_neg (not_lt.mpr h0), if_pos h1]
  · rw [interpolate_price, if_neg (by linarith), if_neg (not_lt.mpr h0), if_pos h1]
  · rw [interpolate_price, if_neg (by linarith), if_neg (by linarith),
      if_neg (not_lt.mpr h0)]
    ring
  · norm_num [interpolate_price]

/-- Witness for `interpolate_price_phases` at a concrete input. -/
theorem interpolate_price_phases_witness :
    interpolate_price 100 120 90 110 (1/10) = 100 + (120 - 100) * ((1/10) / (1/4)) :=
  (interpolate_price_phases 100 120 90 110 (1/10)).1 (by norm_num) (by norm_num)

/-! ## C10 — analyze_tick defaults for missing keys -/

/-- C10: `analyze_tick` is total on ticks missing optional keys: an absent
`prev_close` makes the price check use the tick's `open` value (and `0` when
`open` is also absent, in which case no price alert can fire); an absent
`volume` is treated as `0`; an absent `avg_volume` is treated as `1`, so the
volume check then compares the raw volume directly against the (effective)
threshold multiplier. -/
theorem analyze_tick_defaults (det : SpikeDetector) (t : TickDict) (p v : Option ℚ) :
    (∀ x, t.prev_close = none → t.open_p = some x →
      analyze_tick det t p v = analyze_tick det { t with prev_close := some x } p v) ∧
    (t.prev_close = none → t.open_p = none →
      ∀ a ∈ analyze_tick det t p v, a.alert_type = "volume") ∧
    (t.volume = none →
      analyze_tick det t p v = analyze_tick det { t with volume := some 0 } p v) ∧
    (t.avg_volume = none →
      ((∃ a ∈ analyze_tick det t p v, a.alert_type = "volume") ↔
        pyOrFloat v det.default_volume_threshold_multiplier ≤ t.volume.getD 0)) := by
  refine ⟨fun x h1 h2 => ?_, fun h1 h2 a ha => ?_, fun h1 => ?_, fun h1 => ?_⟩
  · simp [analyze_tick, h1, h2]
  · rw [analyze_tick] at ha
    simp only [h1, h2, Option.getD_none] at ha
    rw [check_price_spike, if_pos le_rfl] at ha
    simp only [List.nil_append] at ha
    rcases hv : check_volume_spike det t.symbol (t.volume.getD 0) (t.avg_volume.getD 1) v with
      _ | b
    · simp [hv] at ha
    · simp only [hv, List.mem_singleton] at ha
      subst ha
      rw [check_volume_spike] at hv
      dsimp only at hv
      split_ifs at hv
      rw [Option.some_inj] at hv
      subst hv
      rfl
  · simp [analyze_tick, h1]
  · rw [analyze_tick]
    simp only [h1, Option.getD_none]
    have hveq : check_volume_spike det t.symbol (t.volume.getD 0) 1 v =
        (if pyOrFloat v det.default_volume_threshold_multiplier ≤ t.volume.getD 0 then
          some { symbol := t.symbol, alert_type := "volume", direction := "up",
                 magnitude := pyRound2 (t.volume.getD 0),
                 current_value := t.volume.getD 0,
                 threshold := pyOrFloat v det.default_volume_threshold_multiplier,
                 reference_value := 1 }
         else none) := by
      rw [check_volume_spike, if_neg (by norm_num)]
      dsimp only
      rw [div_one]
    rw [hveq]
    by_cases hge : pyOrFloat v det.default_volume_threshold_multiplier ≤ t.volume.getD 0
    · rw [if_pos hge]
      refine iff_of_true ?_ hge
      refine ⟨⟨t.symbol, "volume", "up", pyRound2 (t.volume.getD 0), t.volume.getD 0,
        pyOrFloat v det.default_volume_threshold_multiplier, 1⟩, ?_, rfl⟩
      exact List.mem_append_right _ (List.mem_singleton_self _)
    · rw [if_neg hge]
      refine iff_of_false ?_ hge
      rintro ⟨a, ha, hty⟩
      rcases hp : check_price_spike det t.symbol t.price (t.prev_close.getD (t.open_p.getD 0)) p
        with _ | b
      · rw [hp] at ha
        simp at ha
      · rw [hp] at ha
        simp at ha
        have hbty : b.alert_type = "price" := by
          rw [check_price_spike] at hp
          dsimp only at hp
          split_ifs at hp
          all_goals (rw [Option.some_inj] at hp; subst hp; rfl)
        rw [ha, hbty] at hty
        exact absurd hty (by simp)

/-- Witness for `analyze_tick_defaults` at a concrete input. -/
theorem analyze_tick_defaults_witness :
    (∃ a ∈ analyze_tick ⟨3, 2⟩ ⟨"S", 100, some 100, none, some 5, none⟩ none (some 2),
      a.alert_type = "volume") ↔
      pyOrFloat (some 2) ((3, 2) : ℚ × ℚ).2 ≤ (Option.some (5 : ℚ)).getD 0 :=
  (analyze_tick_defaults ⟨3, 2⟩ ⟨"S", 100, some 100, none, some 5, none⟩ none (some 2)).2.2.2 rfl

/-! ## C7 — subscription thresholds -/

/-- With a nonzero explicit threshold the source price check agrees with the
spec-side check that uses the threshold verbatim. -/
theorem check_price_spike_nonzero (det : SpikeDetector) (s : String) (c pc p : ℚ)
    (hp : p ≠ 0) :
    check_price_spike det s c pc (some p) = check_price_spike_direct s c pc p := by
  simp [check_price_spike, check_price_spike_direct, pyOrFloat, hp]

/-- With a nonzero explicit threshold the source volume check agrees with the
spec-side check that uses the threshold verbatim. -/
theorem check_volume_spike_nonzero (det : SpikeDetector) (s : String) (cv av v : ℚ)
    (hv : v ≠ 0) :
    check_volume_spike det s cv av (some v) = check_volume_spike_direct s cv av v := by
  simp [check_volume_spike, check_volume_spike_direct, pyOrFloat, hv]

/-- An alert produced by the direct price check is a price alert. -/
theorem check_price_spike_direct_type (s : String) (c pc th : ℚ) (a : SpikeAlert)
    (h : check_price_spike_direct s c pc th = some a) : a.alert_type = "price" := by
  rw [check_price_spike_direct] at h
  dsimp only at h
  split_ifs at h
  all_goals (rw [Option.some_inj] at h; subst h; rfl)

/-- An alert produced by the direct volume check is a volume alert. -/
theorem check_volume_spike_direct_type (s : String) (cv av th : ℚ) (a : SpikeAlert)
    (h : check_volume_spike_direct s cv av th = some a) : a.alert_type = "volume" := by
  rw [check_volume_spike_direct] at h
  dsimp only at h
  split_ifs at h
  all_goals (rw [Option.some_inj] at h; subst h; rfl)

/-- C7 (amended): `process_ticks` hands each enabled subscription's own
`price_threshold_pct` and `volume_threshold_multiplier` to the detector, and
for every *nonzero* threshold values these are used exactly as given: a
single-subscription manager with empty cooldown state emits precisely the
alerts of the verbatim-threshold detector.  (A threshold equal to 0 is
falsy in Python and is replaced by the detector default — see the
counterexample.) -/
theorem process_ticks_subscription_thresholds (det : SpikeDetector) (u sym : String)
    (sub : AlertSubscription) (cds now : ℚ) (ticks : List (String × TickDict))
    (tick : TickDict)
    (hp : sub.price_threshold_pct ≠ 0) (hv : sub.volume_threshold_multiplier ≠ 0) :
    (∀ t, analyze_tick det t (some sub.price_threshold_pct)
        (some sub.volume_threshold_multiplier) =
      analyze_tick_direct t sub.price_threshold_pct sub.volume_threshold_multiplier) ∧
    (sub.enabled = true → alookup ticks sym = some tick → cds ≤ now →
      (process_ticks ⟨det, [(u, [(sym, sub)])], [], cds⟩ now ticks).2 =
        (analyze_tick_direct tick sub.price_threshold_pct
          sub.volume_threshold_multiplier).map (fun a => (u, a))) := by
  have hana : ∀ t, analyze_tick det t (some sub.price_threshold_pct)
      (some sub.volume_threshold_multiplier) =
      analyze_tick_direct t sub.price_threshold_pct sub.volume_threshold_multiplier := by
    intro t
    rw [analyze_tick, analyze_tick_direct,
      check_price_spike_nonzero det _ _ _ _ hp,
      check_volume_spike_nonzero det _ _ _ _ hv]
  refine ⟨hana, fun hen hlk hcd => ?_⟩
  rw [process_ticks]
  dsimp only
  rw [List.foldl_cons, List.foldl_nil, processUser]
  dsimp only
  rw [List.foldl_cons, List.foldl_nil, processSub]
  dsimp only
  rw [hen, if_neg (by simp), hlk]
  dsimp only
  rw [hana]
  rcases hpa : check_price_spike_direct tick.symbol tick.price
      (tick.prev_close.getD (tick.open_p.getD 0)) sub.price_threshold_pct with _ | pa <;>
    rcases hva : check_volume_spike_direct tick.symbol (tick.volume.getD 0)
      (tick.avg_volume.getD 1) sub.volume_threshold_multiplier with _ | va
  · rw [analyze_tick_direct, hpa, hva]
    simp [processAlert, cdGet, cdSet, not_lt.mpr hcd, sub_zero]
  · rw [analyze_tick_direct, hpa, hva]
    simp [processAlert, cdGet, cdSet, not_lt.mpr hcd, sub_zero]
  · rw [analyze_tick_direct, hpa, hva]
    simp [processAlert, cdGet, cdSet, not_lt.mpr hcd, sub_zero]
  · rw [analyze_tick_direct, hpa, hva]
    have h1 := check_price_spike_direct_type _ _ _ _ _ hpa
    have h2 := check_volume_spike_direct_type _ _ _ _ _ hva
    simp [processAlert, cdGet, cdSet, not_lt.mpr hcd, sub_zero, h1, h2]

/-- C7 counterexample: a subscription whose thresholds are both `0` is run
against the detector *defaults* (3 % and 2×): a 1 % move with volume equal
to average emits nothing, although the detector invoked with the
subscription's own thresholds (0, 0) would fire both alerts. -/
theorem process_ticks_subscription_thresholds_cex :
    (process_ticks amZeroThr 0 [("NABIL", tickSmall)]).2 = [] ∧
    analyze_tick_direct tickSmall 0 0 =
      [⟨"NABIL", "price", "up", 1, 101, 0, 100⟩,
       ⟨"NABIL", "volume", "up", 1, 100, 0, 100⟩] := by
  constructor
  · norm_num [process_ticks, processUser, processSub, amZeroThr, tickSmall, analyze_tick,
      check_price_spike, check_volume_spike, pyOrFloat, alookup, processAlert, cdGet, cdSet]
  · norm_num [analyze_tick_direct, check_price_spike_direct, check_volume_spike_direct,
      tickSmall, pyRound2, pyRoundTo, roundHalfEven, Int.floor_eq_iff, Int.even_iff]

/-- Witness for `process_ticks_subscription_thresholds` at a concrete input. -/
theorem process_ticks_subscription_thresholds_witness :
    (process_ticks ⟨⟨3, 2⟩, [("u1", [("NABIL", ⟨"u1", "NABIL", 3, 2, true⟩)])], [], 300⟩ 300
        [("NABIL", tickScen)]).2 =
      (analyze_tick_direct tickScen 3 2).map (fun a => ("u1", a)) :=
  (process_ticks_subscription_thresholds ⟨3, 2⟩ "u1" "NABIL" ⟨"u1", "NABIL", 3, 2, true⟩
    300 300 [("NABIL", tickScen)] tickScen (by norm_num) (by norm_num)).2
    rfl (by simp [alookup]) (by norm_num)

/-! ## C8 — per-tick volume share -/

/-- C8 (amended): for every generated tick (with the cursor on a valid day),
`tick_volume = max(1, int(day.volume / ticks_per_day * (0.5 + w)))` where
`w` is the runtime value of `sin(progress * pi)` and `int` *truncates toward
zero* (Python `int()`, not `round`); in particular the share is never below
1. -/
theorem generate_tick_volume (rnd1 rnd2 : ℕ) (noise w : ℚ) (s : SymState)
    (hd : s.replay.day_index < s.replay.window.length) :
    (generate_tick rnd1 rnd2 noise w s).2.tick_volume =
      max 1 (pyInt ((s.replay.window.getD s.replay.day_index default).volume_p /
        (s.replay.ticks_per_day : ℚ) * (1/2 + w))) ∧
    1 ≤ (generate_tick rnd1 rnd2 noise w s).2.tick_volume := by
  rw [generate_tick, if_neg (not_le.mpr hd)]
  dsimp only
  exact ⟨rfl, le_max_left _ _⟩

/-- C8 counterexample: on tick 1 of a 7-tick day, `progress = 1/6` and
`sin(progress * pi) = 1/2` exactly; with day volume 25 the code computes
`max(1, int(25/7 * (0.5 + 0.5))) = max(1, int(3.571...)) = 3`, while the
claimed `round` would give `max(1, round(25/7)) = 4`. -/
theorem generate_tick_volume_cex :
    (generate_tick 0 0 0 (1/2) sC8).2.tick_volume = 3 ∧
    max 1 (roundHalfEven ((25 : ℚ) / 7 * (1/2 + 1/2))) = 4 := by
  constructor
  · norm_num [generate_tick, sC8, dayC8, advance_replay, pick_replay_window,
      interpolate_price, pyInt, pyRound2, pyRoundTo, roundHalfEven,
      Int.floor_eq_iff, Int.even_iff]
  · norm_num [roundHalfEven, Int.floor_eq_iff, Int.even_iff]

/-- Witness for `generate_tick_volume` at a concrete input. -/
theorem generate_tick_volume_witness :
    (generate_tick 0 0 0 (1/2) sC8).2.tick_volume =
      max 1 (pyInt ((sC8.replay.window.getD sC8.replay.day_index default).volume_p /
        (sC8.replay.ticks_per_day : ℚ) * (1/2 + 1/2))) ∧
    1 ≤ (generate_tick 0 0 0 (1/2) sC8).2.tick_volume :=
  generate_tick_volume 0 0 0 (1/2) sC8 (by norm_num [sC8])

/-! ## C9 — change_pct guard in the TickState update -/

/-- C9 (amended): in the mid-day `TickState` update, `change_pct` is `0`
exactly when `prev_close = 0` (Python truthiness `if prev_close`); for every
*nonzero* `prev_close` — negative values included — it equals the percentage
change rounded to 2 decimals.  Neither case raises an error or an alert. -/
theorem generate_tick_change_pct (rnd1 rnd2 : ℕ) (noise w : ℚ) (s : SymState)
    (hd : s.replay.day_index < s.replay.window.length)
    (ht : s.replay.tick_index + 1 < s.replay.ticks_per_day) :
    (s.state.prev_close = 0 → (generate_tick rnd1 rnd2 noise w s).2.state.change_pct = 0) ∧
    (s.state.prev_close ≠ 0 →
      (generate_tick rnd1 rnd2 noise w s).2.state.change_pct =
        pyRound2 ((max (interpolate_price
            (s.replay.window.getD s.replay.day_index default).open_p
            (s.replay.window.getD s.replay.day_index default).high_p
            (s.replay.window.getD s.replay.day_index default).low_p
            (s.replay.window.getD s.replay.day_index default).close_p
            (min ((s.replay.tick_index : ℚ) /
              ((max (s.replay.ticks_per_day - 1) 1 : ℕ) : ℚ)) 1) + noise) 1
          - s.state.prev_close) / s.state.prev_close * 100)) := by
  rw [generate_tick, if_neg (not_le.mpr hd)]
  dsimp only
  rw [if_neg (not_le.mpr ht)]
  dsimp only
  constructor
  · intro h0
    rw [if_pos h0]
  · intro h0
    rw [if_neg h0]

/-- C9 counterexample: (a) with `prev_close = -3` (non-positive but nonzero)
the code computes `change_pct = round((100-(-3))/(-3)*100, 2) = -3433.33`,
not `0` as claimed; (b) with `prev_close = 3` the stored value is the
*rounded* `3233.33`, not the exact `(100-3)/3*100`. -/
theorem generate_tick_change_pct_cex :
    ((generate_tick 0 0 0 0 sC9neg).2.state.change_pct = -343333/100 ∧
      sC9neg.state.prev_close ≤ 0 ∧ (-343333 : ℚ)/100 ≠ 0) ∧
    ((generate_tick 0 0 0 0 sC9pos).2.state.change_pct = 323333/100 ∧
      (323333 : ℚ)/100 ≠ ((100 : ℚ) - 3) / 3 * 100) := by
  constructor
  · refine ⟨?_, by norm_num [sC9neg], by norm_num⟩
    norm_num [generate_tick, sC9neg, dayC9, advance_replay, pick_replay_window,
      interpolate_price, pyInt, pyRound2, pyRoundTo, roundHalfEven,
      Int.floor_eq_iff, Int.even_iff]
  · refine ⟨?_, by norm_num⟩
    norm_num [generate_tick, sC9pos, dayC9, advance_replay, pick_replay_window,
      interpolate_price, pyInt, pyRound2, pyRoundTo, roundHalfEven,
      Int.floor_eq_iff, Int.even_iff]

/-- Witness for `generate_tick_change_pct` at a concrete input. -/
theorem generate_tick_change_pct_witness :
    (generate_tick 0 0 0 0 sC9pos).2.state.change_pct =
      pyRound2 ((max (interpolate_price
          (sC9pos.replay.window.getD sC9pos.replay.day_index default).open_p
          (sC9pos.replay.window.getD sC9pos.replay.day_index default).high_p
          (sC9pos.replay.window.getD sC9pos.replay.day_index default).low_p
          (sC9pos.replay.window.getD sC9pos.replay.day_index default).close_p
          (min ((sC9pos.replay.tick_index : ℚ) /
            ((max (sC9pos.replay.ticks_per_day - 1) 1 : ℕ) : ℚ)) 1) + 0) 1
        - sC9pos.state.prev_close) / sC9pos.state.prev_close * 100) :=
  (generate_tick_change_pct 0 0 0 0 sC9pos (by norm_num [sC9pos])
    (by norm_num [sC9pos])).2 (by norm_num [sC9pos])

/-! ## C5 — end-of-day snap to the close -/

/-- C5 (amended): on the call where `tick_index` reaches `ticks_per_day`,
the emitted tick's price is the day's close **rounded to 2 decimals**
(`round(day_close, 2)`; hence exactly the close whenever the close is a
2-decimal value), and `change`/`change_pct` are recomputed against
`prev_close` from the close — all regardless of the Gaussian noise of this
or any earlier tick of the day. -/
theorem generate_tick_snap (rnd1 rnd2 : ℕ) (noise w : ℚ) (s : SymState)
    (hd : s.replay.day_index < s.replay.window.length)
    (ht : s.replay.ticks_per_day ≤ s.replay.tick_index + 1) :
    (generate_tick rnd1 rnd2 noise w s).2.state.price =
      pyRound2 (s.replay.window.getD s.replay.day_index default).close_p ∧
    (generate_tick rnd1 rnd2 noise w s).2.state.change =
      pyRound2 ((s.replay.window.getD s.replay.day_index default).close_p -
        s.state.prev_close) ∧
    (generate_tick rnd1 rnd2 noise w s).2.state.change_pct =
      (if s.state.prev_close = 0 then 0
       else pyRound2 (((s.replay.window.getD s.replay.day_index default).close_p -
         s.state.prev_close) / s.state.prev_close * 100)) ∧
    (pyRound2 (s.replay.window.getD s.replay.day_index default).close_p =
        (s.replay.window.getD s.replay.day_index default).close_p →
      (generate_tick rnd1 rnd2 noise w s).2.state.price =
        (s.replay.window.getD s.replay.day_index default).close_p) := by
  rw [generate_tick, if_neg (not_le.mpr hd)]
  dsimp only
  rw [if_pos ht]
  split_ifs with h1 h2 h3 <;> exact ⟨rfl, rfl, rfl, fun h => Eq.trans rfl h⟩

/-- C5 counterexample: a day whose real close is `301/3 = 100.333...`; the
snapped price is `round(301/3, 2) = 100.33`, not exactly the close. -/
theorem generate_tick_snap_cex :
    (generate_tick 0 0 0 0 sC5).2.state.price = 10033/100 ∧
    dayC5.close_p = 301/3 ∧ (10033 : ℚ)/100 ≠ 301/3 := by
  refine ⟨?_, by norm_num [dayC5], by norm_num⟩
  norm_num [generate_tick, sC5, dayC5, advance_replay, pick_replay_window,
    interpolate_price, pyInt, pyRound2, pyRoundTo, roundHalfEven,
    Int.floor_eq_iff, Int.even_iff]

/-- Witness for `generate_tick_snap` at a concrete input (noise 7 on the
final tick; the snap overrides it). -/
theorem generate_tick_snap_witness :
    (generate_tick 0 0 7 0 sC5).2.state.price =
      pyRound2 (sC5.replay.window.getD sC5.replay.day_index default).close_p :=
  (generate_tick_snap 0 0 7 0 sC5 (by norm_num [sC5]) (by norm_num [sC5])).1

/-! ## C6 — replay-cursor invariant -/

/-- A picked replay window has length `min REPLAY_WINDOW_DAYS len(history)`
whatever the random draw. -/
theorem pick_replay_window_length (rnd : ℕ) (h : List HistoricalDay) :
    (pick_replay_window rnd h).length = min REPLAY_WINDOW_DAYS h.length := by
  rw [pick_replay_window]
  rw [List.length_take, List.length_drop]
  apply min_eq_left
  have hws_le : min REPLAY_WINDOW_DAYS h.length ≤ h.length := min_le_right _ _
  have hstart : rnd % (h.length - min REPLAY_WINDOW_DAYS h.length + 1) ≤
      h.length - min REPLAY_WINDOW_DAYS h.length :=
    Nat.lt_succ_iff.mp (Nat.mod_lt _ (Nat.succ_pos _))
  omega

/-- Reseeding preserves the cursor invariant. -/
theorem advance_replay_inv (rnd : ℕ) (s : SymState)
    (h1 : 0 < s.replay.full_history.length) (h2 : 0 < s.replay.ticks_per_day) :
    CursorInv (advance_replay rnd s) := by
  refine ⟨h1, h2, ?_, h2⟩
  show 0 < (pick_replay_window rnd s.replay.full_history).length
  rw [pick_replay_window_length]
  simp only [REPLAY_WINDOW_DAYS, lt_min_iff]
  exact ⟨by norm_num, h1⟩

/-- C6: after per-symbol initialization, and after every completed
`generate_tick` and `reset_session` call, the replay cursor satisfies
`0 ≤ day_index < len(window)` and `0 ≤ tick_index < ticks_per_day`
(`CursorInv` also carries the two auxiliary facts that make the invariant
inductive: nonempty backing history and positive `ticks_per_day`, both
established at initialization). -/
theorem cursor_invariant_all :
    (∀ (rnd : ℕ) (hist : List HistoricalDay) (t : SymState),
      init_symbol rnd hist = some t → CursorInv t) ∧
    (∀ (rnd : ℕ) (s : SymState), CursorInv s → CursorInv (reset_session rnd s)) ∧
    (∀ (rnd1 rnd2 : ℕ) (noise w : ℚ) (s : SymState), CursorInv s →
      CursorInv ((generate_tick rnd1 rnd2 noise w s).1)) := by
  refine ⟨fun rnd hist t h => ?_, fun rnd s hs => ?_, fun rnd1 rnd2 noise w s hs => ?_⟩
  · rw [init_symbol] at h
    split_ifs at h with hlen
    rw [Option.some_inj] at h
    subst h
    unfold CursorInv
    dsimp only
    refine ⟨Nat.pos_of_ne_zero (by omega), by norm_num [TICKS_PER_DAY], ?_,
      by norm_num [TICKS_PER_DAY]⟩
    rw [pick_replay_window_length]
    simp only [REPLAY_WINDOW_DAYS, lt_min_iff]
    exact ⟨by norm_num, Nat.pos_of_ne_zero (by omega)⟩
  · obtain ⟨i1, i2, i3, i4⟩ := hs
    rw [reset_session]
    dsimp only
    by_cases hle : s.replay.window.length ≤ s.replay.day_index + 1
    · rw [if_pos hle]
      exact advance_replay_inv _ _ i1 i2
    · rw [if_neg hle]
      exact ⟨i1, i2, not_le.mp hle, i2⟩
  · obtain ⟨i1, i2, i3, i4⟩ := hs
    rw [generate_tick, if_neg (not_le.mpr i3)]
    dsimp only
    by_cases hsnap : s.replay.ticks_per_day ≤ s.replay.tick_index + 1
    · rw [if_pos hsnap]
      by_cases hnext : s.replay.day_index + 1 < s.replay.window.length
      · rw [if_pos hnext]
        exact ⟨i1, i2, hnext, i2⟩
      · rw [if_neg hnext]
        exact advance_replay_inv _ _ i1 i2
    · rw [if_neg hsnap]
      exact ⟨i1, i2, i3, not_le.mp hsnap⟩

/-- Witness for `cursor_invariant_all` at a concrete input. -/
theorem cursor_invariant_all_witness :
    CursorInv sInit ∧ CursorInv (reset_session 0 sInit) ∧
      CursorInv ((generate_tick 0 0 0 0 sInit).1) :=
  ⟨cursor_invariant_all.1 0 histEx sInit rfl,
   cursor_invariant_all.2.1 0 sInit (cursor_invariant_all.1 0 histEx sInit rfl),
   cursor_invariant_all.2.2 0 0 0 0 sInit (cursor_invariant_all.1 0 histEx sInit rfl)⟩

/-! ## C3 — cooldown deduplication -/

/-- Reading back the key just written. -/
theorem cdGet_cdSet_self (m : List (CdKey × ℚ)) (k : CdKey) (t : ℚ) :
    cdGet (cdSet m k t) k = t := by
  simp [cdSet, cdGet]

/-- Writing one key leaves every other key's stamp unchanged. -/
theorem cdGet_cdSet_ne (m : List (CdKey × ℚ)) (k k' : CdKey) (t : ℚ) (h : k ≠ k') :
    cdGet (cdSet m k t) k' = cdGet m k' := by
  simp [cdSet, cdGet, h]

/-- A price alert carries the symbol it was checked for. -/
theorem check_price_spike_symbol (det : SpikeDetector) (s : String) (c pc : ℚ)
    (th : Option ℚ) (a : SpikeAlert) (h : check_price_spike det s c pc th = some a) :
    a.symbol = s := by
  rw [check_price_spike] at h
  dsimp only at h
  split_ifs at h
  all_goals (rw [Option.some_inj] at h; subst h; rfl)

/-- A volume alert carries the symbol it was checked for. -/
theorem check_volume_spike_symbol (det : SpikeDetector) (s : String) (cv av : ℚ)
    (th : Option ℚ) (a : SpikeAlert) (h : check_volume_spike det s cv av th = some a) :
    a.symbol = s := by
  rw [check_volume_spike] at h
  dsimp only at h
  split_ifs at h
  all_goals (rw [Option.some_inj] at h; subst h; rfl)

/-- Every alert `analyze_tick` returns carries the tick's symbol. -/
theorem analyze_tick_mem_symbol (det : SpikeDetector) (t : TickDict) (p v : Option ℚ)
    (a : SpikeAlert) (ha : a ∈ analyze_tick det t p v) : a.symbol = t.symbol := by
  rw [analyze_tick] at ha
  rcases hp : check_price_spike det t.symbol t.price (t.prev_close.getD (t.open_p.getD 0)) p
    with _ | b
  · rcases hv : check_volume_spike det t.symbol (t.volume.getD 0) (t.avg_volume.getD 1) v
      with _ | c
    · rw [hp, hv] at ha
      simp at ha
    · rw [hp, hv] at ha
      simp at ha
      subst ha
      exact check_volume_spike_symbol _ _ _ _ _ _ hv
  · rcases hv : check_volume_spike det t.symbol (t.volume.getD 0) (t.avg_volume.getD 1) v
      with _ | c
    · rw [hp, hv] at ha
      simp at ha
      subst ha
      exact check_price_spike_symbol _ _ _ _ _ _ hp
    · rw [hp, hv] at ha
      simp at ha
      rcases ha with ha | ha
      · subst ha
        exact check_price_spike_symbol _ _ _ _ _ _ hp
      · subst ha
        exact check_volume_spike_symbol _ _ _ _ _ _ hv

/-- A successful association-list lookup is a membership. -/
theorem alookup_mem {α β : Type} [DecidableEq α] (l : List (α × β)) (k : α) (v : β)
    (h : alookup l k = some v) : (k, v) ∈ l := by
  induction l with
  | nil => simp [alookup] at h
  | cons p rest ih =>
    obtain ⟨pk, pv⟩ := p
    rw [alookup] at h
    split_ifs at h with hk
    · rw [Option.some_inj] at h
      subst h
      subst hk
      exact List.mem_cons_self _ _
    · exact List.mem_cons_of_mem _ (ih h)

/-- The per-alert step preserves the cooldown invariant: a suppressed alert
changes nothing; an emitted alert is at least `cds` newer than every logged
emission of its key and becomes its key's new stamp. -/
theorem processAlert_inv (cds now : ℚ) (hc : 0 ≤ cds) (u sym : String)
    (alert : SpikeAlert) (hsym : alert.symbol = sym)
    (acc : List (CdKey × ℚ) × List (String × SpikeAlert))
    (L : List ((String × SpikeAlert) × ℚ))
    (h : InvCd cds acc.1 (L ++ acc.2.map (fun e => (e, now)))) :
    InvCd cds (processAlert cds now u sym acc alert).1
      (L ++ ((processAlert cds now u sym acc alert).2).map (fun e => (e, now))) := by
  rw [processAlert]
  split_ifs with hcd
  · exact h
  · push_neg at hcd
    obtain ⟨hpw, hle⟩ := h
    have hkeq : keyOf (u, alert) = (u, sym, alert.alert_type) := by
      rw [keyOf, hsym]
    constructor
    · rw [List.map_append, ← List.append_assoc]
      rw [List.pairwise_append]
      refine ⟨hpw, by simp [List.Pairwise], ?_⟩
      intro a ha b hb
      simp only [List.map_cons, List.map_nil, List.mem_singleton] at hb
      subst hb
      intro hkey
      have ha2 := hle a ha
      rw [hkey, hkeq] at ha2
      dsimp only
      linarith
    · intro e he
      rw [List.map_append, ← List.append_assoc] at he
      rw [List.mem_append] at he
      rcases he with he | he
      · have h1 := hle e he
        by_cases hk : keyOf e.1 = (u, sym, alert.alert_type)
        · rw [hk, cdGet_cdSet_self]
          rw [hk] at h1
          linarith
        · rw [cdGet_cdSet_ne _ _ _ _ (fun hh => hk hh.symm)]
          exact h1
      · simp only [List.map_cons, List.map_nil, List.mem_singleton] at he
        subst he
        dsimp only
        rw [hkeq, cdGet_cdSet_self]

/-- Folding invariant-preserving steps preserves the cooldown invariant. -/
theorem foldl_invcd {α : Type} (cds now : ℚ)
    (f : (List (CdKey × ℚ) × List (String × SpikeAlert)) → α →
      (List (CdKey × ℚ) × List (String × SpikeAlert))) :
    ∀ (l : List α),
      (∀ x ∈ l, ∀ acc L, InvCd cds acc.1 (L ++ acc.2.map (fun e => (e, now))) →
        InvCd cds (f acc x).1 (L ++ (f acc x).2.map (fun e => (e, now)))) →
      ∀ acc L, InvCd cds acc.1 (L ++ acc.2.map (fun e => (e, now))) →
        InvCd cds (l.foldl f acc).1 (L ++ (l.foldl f acc).2.map (fun e => (e, now))) := by
  intro l
  induction l with
  | nil =>
    intro _ acc L h
    simpa using h
  | cons x rest ih =>
    intro hf acc L h
    rw [List.foldl_cons]
    exact ih (fun y hy => hf y (List.mem_cons_of_mem _ hy)) _ L
      (hf x (List.mem_cons_self _ _) acc L h)

/-- The per-subscription step preserves the cooldown invariant on coherent
batches. -/
theorem processSub_inv (det : SpikeDetector) (cds now : ℚ)
    (ticks : List (String × TickDict)) (u : String)
    (hc : 0 ≤ cds) (hco : Coherent ticks)
    (sp : String × AlertSubscription)
    (acc : List (CdKey × ℚ) × List (String × SpikeAlert))
    (L : List ((String × SpikeAlert) × ℚ))
    (h : InvCd cds acc.1 (L ++ acc.2.map (fun e => (e, now)))) :
    InvCd cds (processSub det cds now ticks u acc sp).1
      (L ++ ((processSub det cds now ticks u acc sp).2).map (fun e => (e, now))) := by
  rw [processSub]
  split_ifs with hen
  · exact h
  · rcases hlk : alookup ticks sp.1 with _ | tick
    · exact h
    · dsimp only
      refine foldl_invcd cds now _ _ ?_ acc L h
      intro a ha acc2 L2 h2
      refine processAlert_inv cds now hc u sp.1 a ?_ acc2 L2 h2
      rw [analyze_tick_mem_symbol det tick _ _ a ha]
      exact hco (sp.1, tick) (alookup_mem _ _ _ hlk)

/-- The per-user step preserves the cooldown invariant on coherent batches. -/
theorem processUser_inv (det : SpikeDetector) (cds now : ℚ)
    (ticks : List (String × TickDict)) (hc : 0 ≤ cds) (hco : Coherent ticks)
    (up : String × List (String × AlertSubscription))
    (acc : List (CdKey × ℚ) × List (String × SpikeAlert))
    (L : List ((String × SpikeAlert) × ℚ))
    (h : InvCd cds acc.1 (L ++ acc.2.map (fun e => (e, now)))) :
    InvCd cds (processUser det cds now ticks acc up).1
      (L ++ ((processUser det cds now ticks acc up).2).map (fun e => (e, now))) := by
  rw [processUser]
  exact foldl_invcd cds now _ _
    (fun sp _ acc2 L2 h2 => processSub_inv det cds now ticks up.1 hc hco sp acc2 L2 h2)
    acc L h

/-- One `process_ticks` call preserves the cooldown invariant, extending the
log with this batch's emissions stamped `now`. -/
theorem process_ticks_inv (am : AlertManager) (now : ℚ)
    (ticks : List (String × TickDict)) (hc : 0 ≤ am.cooldown_seconds)
    (hco : Coherent ticks) (L : List ((String × SpikeAlert) × ℚ))
    (h : InvCd am.cooldown_seconds am.cooldowns L) :
    InvCd am.cooldown_seconds (process_ticks am now ticks).1.cooldowns
      (L ++ (process_ticks am now ticks).2.map (fun e => (e, now))) := by
  rw [process_ticks]
  dsimp only
  refine foldl_invcd am.cooldown_seconds now _ _
    (fun up _ acc2 L2 h2 =>
      processUser_inv am.detector am.cooldown_seconds now ticks hc hco up acc2 L2 h2)
    (am.cooldowns, []) L ?_
  simpa using h

/-- Running a batch sequence preserves the cooldown invariant over the
accumulated timed emission log. -/
theorem run_batches_inv :
    ∀ (batches : List (ℚ × List (String × TickDict))) (am : AlertManager)
      (L : List ((String × SpikeAlert) × ℚ)),
      0 ≤ am.cooldown_seconds → (∀ b ∈ batches, Coherent b.2) →
      InvCd am.cooldown_seconds am.cooldowns L →
      InvCd am.cooldown_seconds ((run_batches am batches).1.cooldowns)
        (L ++ (run_batches am batches).2) := by
  intro batches
  induction batches with
  | nil =>
    intro am L hc hco h
    simpa [run_batches] using h
  | cons b rest ih =>
    intro am L hc hco h
    obtain ⟨now, ticks⟩ := b
    rw [run_batches]
    dsimp only
    rw [← List.append_assoc]
    have hcds : (process_ticks am now ticks).1.cooldown_seconds = am.cooldown_seconds := rfl
    have h1 := process_ticks_inv am now ticks hc (hco _ (List.mem_cons_self _ _)) L h
    have h2 := ih (process_ticks am now ticks).1
      (L ++ (process_ticks am now ticks).2.map (fun e => (e, now)))
      (by rw [hcds]; exact hc)
      (fun bb hbb => hco bb (List.mem_cons_of_mem _ hbb))
      (by rw [hcds]; exact h1)
    rw [hcds] at h2
    exact h2

/-- A pairwise-incompatible filter keeps at most one element. -/
theorem pairwise_filter_length_le_one {α : Type} (Q : α → α → Prop) (p : α → Bool)
    (L : List α) (hL : L.Pairwise Q)
    (hcon : ∀ a b, p a = true → p b = true → Q a b → False) :
    (L.filter p).length ≤ 1 := by
  have hs : (L.filter p).Pairwise Q := hL.filter p
  rcases hfp : L.filter p with _ | ⟨a, rest⟩
  · simp
  · rcases rest with _ | ⟨b, rest2⟩
    · simp
    · exfalso
      rw [hfp] at hs
      have hQ : Q a b := (List.pairwise_cons.mp hs).1 b (List.mem_cons_self _ _)
      have hain : a ∈ L.filter p := by
        rw [hfp]
        exact List.mem_cons_self _ _
      have hbin : b ∈ L.filter p := by
        rw [hfp]
        exact List.mem_cons_of_mem _ (List.mem_cons_self _ _)
      exact hcon a b (List.mem_filter.mp hain).2 (List.mem_filter.mp hbin).2 hQ

/-- C3: across any sequence of `process_ticks` calls (each batch stamped with
its `now`, ticks coherent, cooldown window nonnegative), any two emissions
with the same `(user, symbol, alert_type)` key are at least
`cooldown_seconds` apart, so every half-open span of length
`cooldown_seconds` holds at most one emission per key; moreover, in the
concrete scenario with `cooldown_seconds = 300` and the key last fired at
`t = 0`, the repeat at `t = 100` is suppressed without resetting the timer
and the repeat at `t = 301` fires. -/
theorem process_ticks_cooldown_dedup (am : AlertManager)
    (batches : List (ℚ × List (String × TickDict)))
    (hc : 0 ≤ am.cooldown_seconds) (hco : ∀ b ∈ batches, Coherent b.2) :
    ((run_batches am batches).2.Pairwise (cdSep am.cooldown_seconds) ∧
      ∀ (k : CdKey) (t : ℚ),
        ((run_batches am batches).2.filter
          (fun e => decide (keyOf e.1 = k ∧ t ≤ e.2 ∧
            e.2 < t + am.cooldown_seconds))).length ≤ 1) ∧
    ((process_ticks amScen 100 [("NABIL", tickScen)]).2 = [] ∧
     (process_ticks amScen 100 [("NABIL", tickScen)]).1.cooldowns = amScen.cooldowns ∧
     (process_ticks amScen 301 [("NABIL", tickScen)]).2 = [("u1", alertScen)]) := by
  have hrun := run_batches_inv batches am [] hc hco ⟨List.Pairwise.nil, by simp⟩
  rw [List.nil_append] at hrun
  obtain ⟨hpw, _⟩ := hrun
  refine ⟨⟨hpw, fun k t => ?_⟩, ?_, ?_, ?_⟩
  · refine pairwise_filter_length_le_one _ _ _ hpw ?_
    intro a b hpa hpb hq
    rw [decide_eq_true_eq] at hpa hpb
    obtain ⟨hka, hta, hwa⟩ := hpa
    obtain ⟨hkb, htb, hwb⟩ := hpb
    have := hq (hka.trans hkb.symm)
    linarith
  · norm_num [process_ticks, processUser, processSub, amScen, tickScen, analyze_tick,
      check_price_spike, check_volume_spike, pyOrFloat, alookup, processAlert,
      cdGet, cdSet]
  · norm_num [process_ticks, processUser, processSub, amScen, tickScen, analyze_tick,
      check_price_spike, check_volume_spike, pyOrFloat, alookup, processAlert,
      cdGet, cdSet]
  · norm_num [process_ticks, processUser, processSub, amScen, tickScen, alertScen,
      analyze_tick, check_price_spike, check_volume_spike, pyOrFloat, alookup,
      processAlert, cdGet, cdSet]

/-- Witness for `process_ticks_cooldown_dedup` at a concrete input. -/
theorem process_ticks_cooldown_dedup_witness :
    (run_batches amScen [(301, [("NABIL", tickScen)])]).2.Pairwise
      (cdSep amScen.cooldown_seconds) :=
  ((process_ticks_cooldown_dedup amScen [(301, [("NABIL", tickScen)])]
    (by norm_num [amScen])
    (by
      intro b hb
      simp only [List.mem_singleton] at hb
      subst hb
      intro p hp
      simp only [List.mem_singleton] at hp
      subst hp
      rfl)).1).1
